import Mathlib

/-
Verification of the spam-classification workflow of src/main.py.

The workflow lists messages through a mail tool, fetches each message,
asks an LLM to classify it, and aggregates a summary dictionary.  The
three external collaborators (the mail server lookup, the two tool calls
and the LLM call) are modelled as an explicit environment `Env`; a raised
Python exception is modelled as `Except.error`.  Python floats are
modelled as rationals; `round(x, n)` is modelled by `pyRound n` (round
half to even, as Python does).  A dictionary key that may be absent is
modelled as an `Option` field (`none` = key absent).
-/

namespace SpamClassifier

/-- Class SpamType of src/main.py: the category of spam detected. -/
structure SpamType where
  category : String

/-- Class EmailClassification of src/main.py: classification result for a
single email. -/
structure EmailClassification where
  is_spam : Bool
  confidence : ℚ
  spam_type : SpamType
  reasoning : String
  recommended_action : String

/-- Class EmailInfo of src/main.py: email information for classification.
The classification field is attached after the LLM call. -/
structure EmailInfo where
  email_id : String
  subject : String
  from_address : String
  snippet : String
  classification : Option EmailClassification := none

/-- Result dictionary of the gmail_get_message tool call: each of the three
fields read by the workflow may be absent. -/
structure GetMessageResult where
  subject : Option String
  fromAddr : Option String
  snippet : Option String

/-- One message of the conversation passed to app.llm.run. -/
structure ChatMessage where
  role : String
  content : String

/-- One call to app.llm.run (src/main.py lines 143-147): the conversation,
the structured-output schema (named), and the sampling temperature. -/
structure LLMRequest where
  messages : List ChatMessage
  outputSchema : String
  temperature : ℚ

/-- The external collaborators of the workflow.  gmailConfigured models
app.mcp_servers.get("gmail") being non-None; listMessages models the
gmail_list_messages tool call as a function of max_results and label, each
list entry being the "id" field of one message dict (none when the key is
missing); getMessage models gmail_get_message; classify models app.llm.run.
An Except.error models a raised exception in the corresponding call. -/
structure Env where
  gmailConfigured : Bool
  listMessages : ℕ → String → Except String (List (Option String))
  getMessage : String → Except String GetMessageResult
  classify : LLMRequest → Except String EmailClassification

/-- Round half to even of a rational, as Python round does on the exact
value: f is the floor of q and r the fractional numerator over q.den. -/
def roundHalfEven (q : ℚ) : ℤ :=
  let d : ℤ := (q.den : ℤ)
  let f : ℤ := Int.fdiv q.num d
  let r : ℤ := q.num - f * d
  if 2 * r < d then f
  else if d < 2 * r then f + 1
  else if f % 2 = 0 then f else f + 1

/-- Python round(q, ndigits) on the exact rational value. -/
def pyRound (ndigits : ℕ) (q : ℚ) : ℚ :=
  (roundHalfEven (q * 10 ^ ndigits) : ℚ) / 10 ^ ndigits

/-- The classification_prompt f-string of src/main.py lines 123-139 with the
three values substituted.  The leading and trailing newline come from the
triple-quoted string. -/
def classificationPrompt (from_address subject snippet : String) : String :=
  "\nAnalyze this email and classify it as spam or not spam.\n\n**Email Details:**\n- From: "
    ++ from_address
    ++ "\n- Subject: " ++ subject
    ++ "\n- Preview: " ++ snippet
    ++ "\n\nConsider the following factors:\n1. Sender reputation and authenticity\n2. Subject line characteristics (urgency, sensationalism, suspicious patterns)\n3. Content quality and professionalism\n4. Presence of phishing indicators\n5. Marketing/promotional characteristics\n\nProvide a structured classification with confidence score, spam type, reasoning, and recommended action.\n"

/-- Modelled from the spec: the classification prompt template of section 6
(the fenced block), with from_address, subject and snippet substituted. -/
def specPromptTemplate (from_address subject snippet : String) : String :=
  "Analyze this email and classify it as spam or not spam.\n\n**Email Details:**\n- From: "
    ++ from_address
    ++ "\n- Subject: " ++ subject
    ++ "\n- Preview: " ++ snippet
    ++ "\n\nConsider the following factors:\n1. Sender reputation and authenticity\n2. Subject line characteristics (urgency, sensationalism, suspicious patterns)\n3. Content quality and professionalism\n4. Presence of phishing indicators\n5. Marketing/promotional characteristics\n\nProvide a structured classification with confidence score, spam type, reasoning, and recommended action."

/-- The app.llm.run call of src/main.py lines 143-147: a single user message
holding the prompt, the EmailClassification output schema and temperature
0.1. -/
def mkClassifyRequest (from_address subject snippet : String) : LLMRequest :=
  { messages := [{ role := "user",
                   content := classificationPrompt from_address subject snippet }],
    outputSchema := "EmailClassification",
    temperature := 1 / 10 }

/-- Outcome of one iteration of the per-message loop body
(src/main.py lines 96-167). -/
inductive MsgOutcome where
  | skipped : MsgOutcome
  | fetchFailed : MsgOutcome
  | classifyFailed : LLMRequest → MsgOutcome
  | classified : EmailClassification → EmailInfo → LLMRequest → MsgOutcome

/-- The body of the per-message loop of src/main.py lines 96-167 for one list
entry: a missing or empty id is skipped (continue); a failing
gmail_get_message call skips the id; otherwise the three fields are read with
defaults "(no subject)", "unknown" and "", the prompt is built and submitted,
and a failing classification call skips the id; on success the EmailInfo
record carries the classification. -/
def processMessage (env : Env) (msgId : Option String) : MsgOutcome :=
  match msgId with
  | none => MsgOutcome.skipped
  | some email_id =>
    if email_id = "" then MsgOutcome.skipped
    else
      match env.getMessage email_id with
      | Except.error _ => MsgOutcome.fetchFailed
      | Except.ok msgData =>
        match env.classify (mkClassifyRequest (msgData.fromAddr.getD "unknown")
            (msgData.subject.getD "(no subject)") (msgData.snippet.getD "")) with
        | Except.error _ =>
          MsgOutcome.classifyFailed (mkClassifyRequest (msgData.fromAddr.getD "unknown")
            (msgData.subject.getD "(no subject)") (msgData.snippet.getD ""))
        | Except.ok c =>
          MsgOutcome.classified c
            { email_id := email_id
              subject := msgData.subject.getD "(no subject)"
              from_address := msgData.fromAddr.getD "unknown"
              snippet := msgData.snippet.getD ""
              classification := some c }
            (mkClassifyRequest (msgData.fromAddr.getD "unknown")
              (msgData.subject.getD "(no subject)") (msgData.snippet.getD ""))

/-- The mutable loop state of src/main.py lines 92-94: the emails list and
the two counters, together with the list of LLM requests submitted so far
(the observable calls to app.llm.run, in order). -/
structure LoopState where
  emails : List EmailInfo
  spam_count : ℕ
  not_spam_count : ℕ
  llmRequests : List LLMRequest

/-- The loop state before the first iteration. -/
def initState : LoopState :=
  { emails := [], spam_count := 0, not_spam_count := 0, llmRequests := [] }

/-- One iteration of the loop: how the state changes for one list entry.
Skipped and failed entries leave the accumulated results unchanged; a
classification failure still submitted one LLM request; a classified message
updates one counter and appends the record. -/
def stepState (env : Env) (st : LoopState) (msgId : Option String) : LoopState :=
  match processMessage env msgId with
  | MsgOutcome.skipped => st
  | MsgOutcome.fetchFailed => st
  | MsgOutcome.classifyFailed req =>
    { st with llmRequests := st.llmRequests ++ [req] }
  | MsgOutcome.classified c info req =>
    { emails := st.emails ++ [info]
      spam_count := st.spam_count + (if c.is_spam then 1 else 0)
      not_spam_count := st.not_spam_count + (if c.is_spam then 0 else 1)
      llmRequests := st.llmRequests ++ [req] }

/-- The whole per-message loop, strictly sequential in listing order. -/
def runLoop (env : Env) (messages : List (Option String)) : LoopState :=
  messages.foldl (stepState env) initState

/-- One entry of the "emails" list of the returned dictionary
(src/main.py lines 178-201): the five classification-derived values are None
(here: none) when the record has no classification attached. -/
structure SummaryEmail where
  email_id : String
  subject : String
  fromAddr : String
  is_spam : Option Bool
  confidence : Option ℚ
  spam_type : Option String
  reasoning : Option String
  recommended_action : Option String

/-- Serialization of one EmailInfo record into the returned dictionary
(src/main.py lines 178-201). -/
def serializeEmail (email : EmailInfo) : SummaryEmail :=
  { email_id := email.email_id
    subject := email.subject
    fromAddr := email.from_address
    is_spam := email.classification.map (fun c => c.is_spam)
    confidence := email.classification.map (fun c => pyRound 2 c.confidence)
    spam_type := email.classification.map (fun c => c.spam_type.category)
    reasoning := email.classification.map (fun c => c.reasoning)
    recommended_action := email.classification.map (fun c => c.recommended_action) }

/-- The returned results dictionary.  spam_percentage is an Option because
the early return of src/main.py lines 78-83 builds a dictionary without that
key (none = key absent). -/
structure RunSummary where
  total_processed : ℕ
  spam_count : ℕ
  not_spam_count : ℕ
  spam_percentage : Option ℚ
  emails : List SummaryEmail

/-- The dictionary returned by the early return of src/main.py lines 78-83
when the listing is empty: only four keys, spam_percentage absent. -/
def emptySummary : RunSummary :=
  { total_processed := 0, spam_count := 0, not_spam_count := 0,
    spam_percentage := none, emails := [] }

/-- The results dictionary built at src/main.py lines 170-204 from the final
loop state. -/
def summarize (st : LoopState) : RunSummary :=
  { total_processed := st.emails.length
    spam_count := st.spam_count
    not_spam_count := st.not_spam_count
    spam_percentage :=
      some (if st.emails.isEmpty then 0
            else pyRound 1 ((st.spam_count : ℚ) / (st.emails.length : ℚ) * 100))
    emails := st.emails.map serializeEmail }

/-- The classify_spam_workflow function of src/main.py: raises when the gmail
server is not configured, propagates a listing failure, returns the four-key
zero dictionary on an empty listing, and otherwise runs the loop and builds
the summary.  The second component of the result is the list of LLM requests
submitted during the run. -/
def classify_spam_workflow (env : Env) (max_emails : ℕ := 20)
    (label : String := "INBOX") : Except String (RunSummary × List LLMRequest) :=
  if env.gmailConfigured = false then
    Except.error "Gmail MCP server not configured"
  else
    match env.listMessages max_emails label with
    | Except.error e => Except.error e
    | Except.ok messages =>
      if messages.isEmpty then Except.ok (emptySummary, [])
      else
        Except.ok (summarize (runLoop env messages), (runLoop env messages).llmRequests)

/-- An entry of the listing whose id is present and non-empty, i.e. one the
loop does not skip at src/main.py lines 97-99. -/
def isValidId : Option String → Bool
  | none => false
  | some email_id => !(email_id == "")

/-- An entry whose fetch or classification call raises, i.e. one the except
branch of src/main.py lines 164-167 skips. -/
def msgFails (env : Env) (msgId : Option String) : Bool :=
  match processMessage env msgId with
  | MsgOutcome.fetchFailed => true
  | MsgOutcome.classifyFailed _ => true
  | _ => false

/-- An entry that is fetched and classified successfully. -/
def isClassifiedMsg (env : Env) (msgId : Option String) : Bool :=
  match processMessage env msgId with
  | MsgOutcome.classified _ _ _ => true
  | _ => false

/-- A sample spam classification used by concrete runs. -/
def classSpam : EmailClassification :=
  { is_spam := true, confidence := 9 / 10, spam_type := { category := "phishing" },
    reasoning := "urgent wire transfer request", recommended_action := "delete" }

/-- A sample non-spam classification used by concrete runs. -/
def classHam : EmailClassification :=
  { is_spam := false, confidence := 95 / 100, spam_type := { category := "legitimate" },
    reasoning := "routine newsletter", recommended_action := "keep" }

/-- A concrete listing with a malformed entry (missing id), an empty id and a
failing message among them. -/
def msgsA : List (Option String) :=
  [some "m1", none, some "", some "m2", some "m3"]

/-- A concrete environment: five listed entries, message m3 fails to fetch,
every classification returns classSpam. -/
def envA : Env :=
  { gmailConfigured := true
    listMessages := fun _ _ => Except.ok msgsA
    getMessage := fun email_id =>
      if email_id = "m3" then Except.error "fetch failed"
      else Except.ok { subject := some "Meeting notes",
                       fromAddr := some "alice", snippet := some "see attached" }
    classify := fun _ => Except.ok classSpam }

/-- The concrete run of envA. -/
def outA : RunSummary × List LLMRequest :=
  ((classify_spam_workflow envA 20 "INBOX").toOption).getD (emptySummary, [])

/-- A concrete environment whose listing is empty. -/
def envEmptyListing : Env :=
  { gmailConfigured := true
    listMessages := fun _ _ => Except.ok []
    getMessage := fun _ => Except.error "unreachable"
    classify := fun _ => Except.error "unreachable" }

/-- A concrete environment with no gmail server configured. -/
def envNoGmail : Env :=
  { gmailConfigured := false
    listMessages := fun _ _ => Except.ok []
    getMessage := fun _ => Except.error "unreachable"
    classify := fun _ => Except.error "unreachable" }

/-- A concrete environment: two valid ids, b1 fails to fetch, g1 classifies
as non-spam. -/
def envB : Env :=
  { gmailConfigured := true
    listMessages := fun _ _ => Except.ok [some "g1", some "b1"]
    getMessage := fun email_id =>
      if email_id = "b1" then Except.error "boom"
      else Except.ok { subject := some "hello",
                       fromAddr := some "bob", snippet := some "hi" }
    classify := fun _ => Except.ok classHam }

/-- A concrete environment whose fetched message has all three fields
absent. -/
def envC : Env :=
  { gmailConfigured := true
    listMessages := fun _ _ => Except.ok [some "m1"]
    getMessage := fun _ => Except.ok { subject := none, fromAddr := none, snippet := none }
    classify := fun _ => Except.ok classHam }

/-- The record produced by envC for message m1: all three fields defaulted. -/
def infoC : EmailInfo :=
  { email_id := "m1", subject := "(no subject)", from_address := "unknown",
    snippet := "", classification := some classHam }

/-- The LLM request produced by envC for message m1. -/
def reqC : LLMRequest := mkClassifyRequest "unknown" "(no subject)" ""

/-- A default summary-email record, used only to extract a concrete element
of a concrete run. -/
def defaultSummaryEmail : SummaryEmail :=
  { email_id := "", subject := "", fromAddr := "", is_spam := none,
    confidence := none, spam_type := none, reasoning := none,
    recommended_action := none }

/-- The first serialized email of the concrete run of envA. -/
def someEmailA : SummaryEmail := outA.1.emails.getD 0 defaultSummaryEmail

/-- Serialization keeps the email id. -/
theorem serializeEmail_email_id (email : EmailInfo) :
    (serializeEmail email).email_id = email.email_id := rfl

/-- The first literal chunk of the prompt is a newline followed by the first
line of the template. -/
theorem prompt_head_split :
    ("\nAnalyze this email and classify it as spam or not spam.\n\n**Email Details:**\n- From: " : String)
      = "\n" ++ "Analyze this email and classify it as spam or not spam.\n\n**Email Details:**\n- From: " := rfl

set_option maxRecDepth 4000 in
/-- The last literal chunk of the prompt is the tail of the template followed
by a newline. -/
theorem prompt_tail_split :
    ("\n\nConsider the following factors:\n1. Sender reputation and authenticity\n2. Subject line characteristics (urgency, sensationalism, suspicious patterns)\n3. Content quality and professionalism\n4. Presence of phishing indicators\n5. Marketing/promotional characteristics\n\nProvide a structured classification with confidence score, spam type, reasoning, and recommended action.\n" : String)
      = "\n\nConsider the following factors:\n1. Sender reputation and authenticity\n2. Subject line characteristics (urgency, sensationalism, suspicious patterns)\n3. Content quality and professionalism\n4. Presence of phishing indicators\n5. Marketing/promotional characteristics\n\nProvide a structured classification with confidence score, spam type, reasoning, and recommended action." ++ "\n" := rfl

/-- The prompt built by the workflow is the section 6 template of the
specification with the values substituted, wrapped in the two newlines of the
triple-quoted f-string. -/
theorem classificationPrompt_eq_spec (from_address subject snippet : String) :
    classificationPrompt from_address subject snippet =
      "\n" ++ specPromptTemplate from_address subject snippet ++ "\n" := by
  unfold classificationPrompt specPromptTemplate
  rw [prompt_head_split, prompt_tail_split]
  simp only [String.append_assoc]

/-- Case analysis of a run that returned a summary: the listing succeeded,
and the result is either the early empty return or the summarized loop
state. -/
theorem workflow_ok_cases (env : Env) (max_emails : ℕ) (label : String)
    (s : RunSummary) (tr : List LLMRequest)
    (h : classify_spam_workflow env max_emails label = Except.ok (s, tr)) :
    ∃ messages, env.listMessages max_emails label = Except.ok messages ∧
      ((messages.isEmpty = true ∧ s = emptySummary ∧ tr = []) ∨
       (messages.isEmpty = false ∧ s = summarize (runLoop env messages) ∧
         tr = (runLoop env messages).llmRequests)) := by
  unfold classify_spam_workflow at h
  split at h
  · exact absurd h (by simp)
  · split at h
    · exact absurd h (by simp)
    · rename_i messages heq
      split at h
      · rename_i hm
        simp only [Except.ok.injEq, Prod.mk.injEq] at h
        exact ⟨messages, heq, Or.inl ⟨hm, h.1.symm, h.2.symm⟩⟩
      · rename_i hm
        simp only [Except.ok.injEq, Prod.mk.injEq] at h
        exact ⟨messages, heq,
          Or.inr ⟨by simpa using hm, h.1.symm, h.2.symm⟩⟩

/-- One loop iteration preserves the counting invariant. -/
theorem stepState_counts (env : Env) (st : LoopState) (msgId : Option String)
    (h : st.spam_count + st.not_spam_count = st.emails.length) :
    (stepState env st msgId).spam_count + (stepState env st msgId).not_spam_count
      = (stepState env st msgId).emails.length := by
  cases hp : processMessage env msgId with
  | skipped => simpa [stepState, hp] using h
  | fetchFailed => simpa [stepState, hp] using h
  | classifyFailed req => simpa [stepState, hp] using h
  | classified c info req =>
    by_cases hc : c.is_spam <;>
      simp [stepState, hp, hc, List.length_append] <;> omega

/-- The whole loop preserves the counting invariant. -/
theorem runLoop_counts_aux (env : Env) :
    ∀ (messages : List (Option String)) (st : LoopState),
      st.spam_count + st.not_spam_count = st.emails.length →
      (messages.foldl (stepState env) st).spam_count
          + (messages.foldl (stepState env) st).not_spam_count
        = (messages.foldl (stepState env) st).emails.length := by
  intro messages
  induction messages with
  | nil => intro st h; simpa using h
  | cons mid rest ih =>
    intro st h
    simpa using ih (stepState env st mid) (stepState_counts env st mid h)

/-- Claim C1 (observed divergence): with a configured server and an empty
listing, the workflow returns the four-field zero dictionary; the
spam_percentage key is absent (none), not 0. -/
theorem empty_listing_omits_spam_percentage :
    classify_spam_workflow envEmptyListing 20 "INBOX" =
      Except.ok ({ total_processed := 0, spam_count := 0, not_spam_count := 0,
                   spam_percentage := none, emails := [] }, []) := rfl

/-- Claim C2: in every returned summary, spam_count + not_spam_count equals
total_processed, and total_processed equals the length of the emails list;
entries that error out or are skipped never reach any of the three counts. -/
theorem counts_invariant (env : Env) (max_emails : ℕ) (label : String)
    (s : RunSummary) (tr : List LLMRequest)
    (h : classify_spam_workflow env max_emails label = Except.ok (s, tr)) :
    s.spam_count + s.not_spam_count = s.total_processed ∧
      s.total_processed = s.emails.length := by
  obtain ⟨messages, _, hcase⟩ := workflow_ok_cases env max_emails label s tr h
  rcases hcase with ⟨_, hs, _⟩ | ⟨_, hs, _⟩
  · subst hs; exact ⟨rfl, rfl⟩
  · subst hs
    constructor
    · have h0 : initState.spam_count + initState.not_spam_count
          = initState.emails.length := rfl
      have hc := runLoop_counts_aux env messages initState h0
      simpa [summarize, runLoop] using hc
    · simp [summarize]

/-- Witness for counts_invariant: the concrete run of envA. -/
theorem counts_invariant_witness :
    outA.1.spam_count + outA.1.not_spam_count = outA.1.total_processed ∧
      outA.1.total_processed = outA.1.emails.length :=
  counts_invariant envA 20 "INBOX" outA.1 outA.2 rfl

/-- Claim C3 (observed divergence): a run that returns a summary with
total_processed = 0 whose spam_percentage is not 0: on an empty listing the
early return omits the key entirely. -/
theorem zero_processed_without_percentage :
    ∃ s tr, classify_spam_workflow envEmptyListing 20 "INBOX" = Except.ok (s, tr) ∧
      s.total_processed = 0 ∧ s.spam_percentage ≠ some 0 :=
  ⟨emptySummary, [], rfl, rfl, by simp [emptySummary]⟩

/-- Claim C4: if the gmail server is not configured, or the initial listing
call fails, the workflow propagates an error and produces no summary. -/
theorem fatal_setup_or_listing_failure (env : Env) (max_emails : ℕ) (label : String)
    (h : env.gmailConfigured = false ∨
      ∃ msg, env.listMessages max_emails label = Except.error msg) :
    ∃ e, classify_spam_workflow env max_emails label = Except.error e := by
  rcases h with hg | ⟨msg, hl⟩
  · exact ⟨"Gmail MCP server not configured", by simp [classify_spam_workflow, hg]⟩
  · by_cases hg : env.gmailConfigured = false
    · exact ⟨"Gmail MCP server not configured", by simp [classify_spam_workflow, hg]⟩
    · exact ⟨msg, by simp [classify_spam_workflow, hg, hl]⟩

/-- Witness for fatal_setup_or_listing_failure: the unconfigured
environment. -/
theorem fatal_setup_witness :
    ∃ e, classify_spam_workflow envNoGmail 20 "INBOX" = Except.error e :=
  fatal_setup_or_listing_failure envNoGmail 20 "INBOX" (Or.inl rfl)

/-- Reduction of processMessage: a missing id is skipped. -/
theorem processMessage_none (env : Env) :
    processMessage env none = MsgOutcome.skipped := rfl

/-- Reduction of processMessage: an empty id is skipped. -/
theorem processMessage_empty (env : Env) (email_id : String)
    (he : email_id = "") :
    processMessage env (some email_id) = MsgOutcome.skipped := by
  simp [processMessage, he]

/-- Reduction of processMessage: a failing fetch call. -/
theorem processMessage_fetch_error (env : Env) (email_id : String) (e : String)
    (he : ¬(email_id = "")) (hg : env.getMessage email_id = Except.error e) :
    processMessage env (some email_id) = MsgOutcome.fetchFailed := by
  simp [processMessage, he, hg]

/-- Reduction of processMessage: a failing classification call, which still
submitted one request. -/
theorem processMessage_classify_error (env : Env) (email_id : String)
    (msgData : GetMessageResult) (e : String)
    (he : ¬(email_id = "")) (hg : env.getMessage email_id = Except.ok msgData)
    (hc : env.classify (mkClassifyRequest (msgData.fromAddr.getD "unknown")
        (msgData.subject.getD "(no subject)") (msgData.snippet.getD ""))
      = Except.error e) :
    processMessage env (some email_id) =
      MsgOutcome.classifyFailed (mkClassifyRequest (msgData.fromAddr.getD "unknown")
        (msgData.subject.getD "(no subject)") (msgData.snippet.getD "")) := by
  simp [processMessage, he, hg, hc]

/-- Reduction of processMessage: a successful fetch and classification. -/
theorem processMessage_ok (env : Env) (email_id : String)
    (msgData : GetMessageResult) (c2 : EmailClassification)
    (he : ¬(email_id = "")) (hg : env.getMessage email_id = Except.ok msgData)
    (hc : env.classify (mkClassifyRequest (msgData.fromAddr.getD "unknown")
        (msgData.subject.getD "(no subject)") (msgData.snippet.getD ""))
      = Except.ok c2) :
    processMessage env (some email_id) =
      MsgOutcome.classified c2
        { email_id := email_id,
          subject := msgData.subject.getD "(no subject)",
          from_address := msgData.fromAddr.getD "unknown",
          snippet := msgData.snippet.getD "",
          classification := some c2 }
        (mkClassifyRequest (msgData.fromAddr.getD "unknown")
          (msgData.subject.getD "(no subject)") (msgData.snippet.getD "")) := by
  simp [processMessage, he, hg, hc]

/-- What a classified outcome determines: the entry was the record id, the
record carries the classification, and the submitted request was built from
the record fields. -/
theorem processMessage_classified (env : Env) (msgId : Option String)
    (c : EmailClassification) (info : EmailInfo) (req : LLMRequest)
    (h : processMessage env msgId = MsgOutcome.classified c info req) :
    msgId = some info.email_id ∧ info.classification = some c ∧
      req = mkClassifyRequest info.from_address info.subject info.snippet := by
  cases msgId with
  | none =>
    rw [processMessage_none env] at h
    exact absurd h (by simp)
  | some email_id =>
    by_cases he : email_id = ""
    · rw [processMessage_empty env email_id he] at h
      exact absurd h (by simp)
    · cases hg : env.getMessage email_id with
      | error e =>
        rw [processMessage_fetch_error env email_id e he hg] at h
        exact absurd h (by simp)
      | ok msgData =>
        cases hc : env.classify (mkClassifyRequest (msgData.fromAddr.getD "unknown")
            (msgData.subject.getD "(no subject)") (msgData.snippet.getD "")) with
        | error e =>
          rw [processMessage_classify_error env email_id msgData e he hg hc] at h
          exact absurd h (by simp)
        | ok c2 =>
          rw [processMessage_ok env email_id msgData c2 he hg hc] at h
          injection h with h1 h2 h3
          subst h1; subst h2; subst h3
          exact ⟨rfl, rfl, rfl⟩

/-- A valid entry is never skipped: it is fetched, failed or classified. -/
theorem valid_not_skipped (env : Env) (msgId : Option String)
    (hv : isValidId msgId = true) :
    processMessage env msgId ≠ MsgOutcome.skipped := by
  cases msgId with
  | none => simp [isValidId] at hv
  | some email_id =>
    have he : ¬(email_id = "") := by simpa [isValidId] using hv
    intro h
    cases hg : env.getMessage email_id with
    | error e =>
      rw [processMessage_fetch_error env email_id e he hg] at h
      exact MsgOutcome.noConfusion h
    | ok msgData =>
      cases hc : env.classify (mkClassifyRequest (msgData.fromAddr.getD "unknown")
          (msgData.subject.getD "(no subject)") (msgData.snippet.getD "")) with
      | error e =>
        rw [processMessage_classify_error env email_id msgData e he hg hc] at h
        exact MsgOutcome.noConfusion h
      | ok c2 =>
        rw [processMessage_ok env email_id msgData c2 he hg hc] at h
        exact MsgOutcome.noConfusion h

/-- Among valid entries, classified and failing ones partition the list. -/
theorem countP_classified_add_fails (env : Env) :
    ∀ messages : List (Option String),
      (∀ mid ∈ messages, isValidId mid = true) →
      messages.countP (isClassifiedMsg env) + messages.countP (msgFails env)
        = messages.length := by
  intro messages
  induction messages with
  | nil => intro _; simp
  | cons mid rest ih =>
    intro hv
    have hmid := hv mid (List.mem_cons_self mid rest)
    have hrest := ih fun m hm => hv m (List.mem_cons_of_mem mid hm)
    have hne := valid_not_skipped env mid hmid
    rw [List.countP_cons, List.countP_cons, List.length_cons]
    cases hp : processMessage env mid with
    | skipped => exact absurd hp hne
    | fetchFailed => simp [isClassifiedMsg, msgFails, hp]; omega
    | classifyFailed req => simp [isClassifiedMsg, msgFails, hp]; omega
    | classified c info req => simp [isClassifiedMsg, msgFails, hp]; omega

/-- The loop appends exactly one record per classified entry. -/
theorem runLoop_emails_length (env : Env) :
    ∀ (messages : List (Option String)) (st : LoopState),
      (messages.foldl (stepState env) st).emails.length
        = st.emails.length + messages.countP (isClassifiedMsg env) := by
  intro messages
  induction messages with
  | nil => intro st; simp
  | cons mid rest ih =>
    intro st
    rw [List.foldl_cons, List.countP_cons, ih (stepState env st mid)]
    cases hp : processMessage env mid with
    | skipped => simp [stepState, hp, isClassifiedMsg]
    | fetchFailed => simp [stepState, hp, isClassifiedMsg]
    | classifyFailed req => simp [stepState, hp, isClassifiedMsg]
    | classified c info req =>
      simp [stepState, hp, isClassifiedMsg, List.length_append]; omega

/-- Every record in the final emails list came from a classified entry of the
listing. -/
theorem mem_runLoop_emails (env : Env) :
    ∀ (messages : List (Option String)) (st : LoopState) (info : EmailInfo),
      info ∈ (messages.foldl (stepState env) st).emails →
      info ∈ st.emails ∨ ∃ mid c req, mid ∈ messages ∧
        processMessage env mid = MsgOutcome.classified c info req := by
  intro messages
  induction messages with
  | nil => intro st info h; exact Or.inl (by simpa using h)
  | cons mid rest ih =>
    intro st info h
    rw [List.foldl_cons] at h
    rcases ih (stepState env st mid) info h with h1 | ⟨mid2, c, req, hm, hp⟩
    · cases hp : processMessage env mid with
      | skipped => rw [show stepState env st mid = st by simp [stepState, hp]] at h1
                   exact Or.inl h1
      | fetchFailed => rw [show stepState env st mid = st by simp [stepState, hp]] at h1
                       exact Or.inl h1
      | classifyFailed req => simp [stepState, hp] at h1
                              exact Or.inl h1
      | classified c2 info2 req2 =>
        simp [stepState, hp] at h1
        rcases h1 with h1 | h1
        · exact Or.inl h1
        · exact Or.inr ⟨mid, c2, req2, List.mem_cons_self mid rest, h1 ▸ hp⟩
    · exact Or.inr ⟨mid2, c, req, List.mem_cons_of_mem mid hm, hp⟩

/-- The ids of the records accumulated by the loop form an order-preserving
subsequence of the present ids of the listing. -/
theorem runLoop_emails_sublist (env : Env) :
    ∀ (messages : List (Option String)) (st : LoopState),
      ∃ ext, (messages.foldl (stepState env) st).emails = st.emails ++ ext ∧
        List.Sublist (ext.map EmailInfo.email_id)
          (messages.filterMap (fun x => x)) := by
  intro messages
  induction messages with
  | nil => intro st; exact ⟨[], by simp, by simp⟩
  | cons mid rest ih =>
    intro st
    obtain ⟨ext, he, hs⟩ := ih (stepState env st mid)
    cases hp : processMessage env mid with
    | skipped =>
      refine ⟨ext, ?_, ?_⟩
      · rw [List.foldl_cons, he]; simp [stepState, hp]
      · cases mid with
        | none => simpa [List.filterMap_cons] using hs
        | some email_id =>
          simpa [List.filterMap_cons] using hs.cons email_id
    | fetchFailed =>
      refine ⟨ext, ?_, ?_⟩
      · rw [List.foldl_cons, he]; simp [stepState, hp]
      · cases mid with
        | none => simpa [List.filterMap_cons] using hs
        | some email_id =>
          simpa [List.filterMap_cons] using hs.cons email_id
    | classifyFailed req =>
      refine ⟨ext, ?_, ?_⟩
      · rw [List.foldl_cons, he]; simp [stepState, hp]
      · cases mid with
        | none => simpa [List.filterMap_cons] using hs
        | some email_id =>
          simpa [List.filterMap_cons] using hs.cons email_id
    | classified c info req =>
      have hmid := (processMessage_classified env mid c info req hp).1
      refine ⟨info :: ext, ?_, ?_⟩
      · rw [List.foldl_cons, he]
        simp [stepState, hp]
      · subst hmid
        simpa [List.filterMap_cons] using hs.cons₂ info.email_id

/-- Claim C5: with a configured server, a successful listing of valid ids
among which some entries fail to fetch or classify, the run still returns a
summary, total_processed is the number of listed ids minus the number of
failing ones, and no failing id appears in the emails list. -/
theorem per_item_failures_skipped (env : Env) (max_emails : ℕ) (label : String)
    (messages : List (Option String))
    (hconf : env.gmailConfigured = true)
    (hlist : env.listMessages max_emails label = Except.ok messages)
    (hvalid : ∀ mid ∈ messages, isValidId mid = true) :
    ∃ s tr, classify_spam_workflow env max_emails label = Except.ok (s, tr) ∧
      s.total_processed = messages.length - messages.countP (msgFails env) ∧
      ∀ email_id, some email_id ∈ messages → msgFails env (some email_id) = true →
        email_id ∉ s.emails.map SummaryEmail.email_id := by
  have hw : classify_spam_workflow env max_emails label =
      (if messages.isEmpty then Except.ok (emptySummary, [])
       else Except.ok (summarize (runLoop env messages),
         (runLoop env messages).llmRequests)) := by
    simp [classify_spam_workflow, hconf, hlist]
  by_cases hm : messages.isEmpty
  · rw [if_pos hm] at hw
    have hnil : messages = [] := List.isEmpty_iff.mp hm
    subst hnil
    exact ⟨emptySummary, [], hw, by simp [emptySummary], by simp [emptySummary]⟩
  · rw [if_neg hm] at hw
    refine ⟨summarize (runLoop env messages),
      (runLoop env messages).llmRequests, hw, ?_, ?_⟩
    · have h1 := runLoop_emails_length env messages initState
      have h2 := countP_classified_add_fails env messages hvalid
      simp only [summarize, runLoop, initState, List.length_nil] at h1 ⊢
      omega
    · intro email_id hmem hfail hcontra
      simp only [summarize, List.map_map] at hcontra
      rw [List.mem_map] at hcontra
      obtain ⟨info, hinfo, heid⟩ := hcontra
      have heid2 : info.email_id = email_id := heid
      rcases mem_runLoop_emails env messages initState info hinfo with h0 | ⟨mid, c, req, _, hp⟩
      · simp [initState] at h0
      · have hmid := (processMessage_classified env mid c info req hp).1
        rw [hmid, heid2] at hp
        unfold msgFails at hfail
        rw [hp] at hfail
        simp at hfail

/-- Witness for per_item_failures_skipped: the concrete run of envB, where
ids g1 and b1 are listed and b1 fails to fetch. -/
theorem per_item_failures_witness :
    ∃ s tr, classify_spam_workflow envB 20 "INBOX" = Except.ok (s, tr) ∧
      s.total_processed = ([some "g1", some "b1"] : List (Option String)).length
        - ([some "g1", some "b1"] : List (Option String)).countP (msgFails envB) ∧
      ∀ email_id, some email_id ∈ ([some "g1", some "b1"] : List (Option String)) →
        msgFails envB (some email_id) = true →
        email_id ∉ s.emails.map SummaryEmail.email_id :=
  per_item_failures_skipped envB 20 "INBOX" [some "g1", some "b1"] rfl rfl (by decide)

/-- Claim C6: a fetched message is never skipped for missing fields; absent
subject, from and snippet fields are replaced by "(no subject)", "unknown"
and "" in the record that is processed. -/
theorem missing_fields_defaulted (env : Env) (email_id : String)
    (msgData : GetMessageResult)
    (hid : email_id ≠ "") (hget : env.getMessage email_id = Except.ok msgData) :
    processMessage env (some email_id) ≠ MsgOutcome.skipped ∧
    processMessage env (some email_id) ≠ MsgOutcome.fetchFailed ∧
    ∀ c info req,
      processMessage env (some email_id) = MsgOutcome.classified c info req →
      (msgData.subject = none → info.subject = "(no subject)") ∧
      (msgData.fromAddr = none → info.from_address = "unknown") ∧
      (msgData.snippet = none → info.snippet = "") := by
  cases hc : env.classify (mkClassifyRequest (msgData.fromAddr.getD "unknown")
      (msgData.subject.getD "(no subject)") (msgData.snippet.getD "")) with
  | error e =>
    have hred := processMessage_classify_error env email_id msgData e hid hget hc
    refine ⟨by rw [hred]; simp, by rw [hred]; simp, ?_⟩
    intro c info req h
    rw [hred] at h
    exact absurd h (by simp)
  | ok c2 =>
    have hred := processMessage_ok env email_id msgData c2 hid hget hc
    refine ⟨by rw [hred]; simp, by rw [hred]; simp, ?_⟩
    intro c info req h
    rw [hred] at h
    injection h with h1 h2 h3
    subst h2
    refine ⟨?_, ?_, ?_⟩ <;> intro hnone <;> simp [hnone]

/-- Witness for missing_fields_defaulted: envC fetches a message with all
three fields absent. -/
theorem missing_fields_witness :
    processMessage envC (some "m1") ≠ MsgOutcome.skipped ∧
    processMessage envC (some "m1") ≠ MsgOutcome.fetchFailed ∧
    ∀ c info req,
      processMessage envC (some "m1") = MsgOutcome.classified c info req →
      ((none : Option String) = none → info.subject = "(no subject)") ∧
      ((none : Option String) = none → info.from_address = "unknown") ∧
      ((none : Option String) = none → info.snippet = "") :=
  missing_fields_defaulted envC "m1"
    { subject := none, fromAddr := none, snippet := none } (by decide) rfl

/-- Claim C7: each classified message submitted exactly one LLM request, a
single-message user conversation whose content is the prompt built from the
record fields, with temperature 0.1 and the EmailClassification output
schema; and the prompt is the section 6 template of the specification with
the values substituted, wrapped in the newlines of the triple-quoted
string. -/
theorem classified_request_shape (env : Env) (st : LoopState) (msgId : Option String)
    (c : EmailClassification) (info : EmailInfo) (req : LLMRequest)
    (h : processMessage env msgId = MsgOutcome.classified c info req) :
    (stepState env st msgId).llmRequests = st.llmRequests ++ [req] ∧
      req.temperature = 1 / 10 ∧
      req.outputSchema = "EmailClassification" ∧
      req.messages = [{ role := "user",
                        content := classificationPrompt info.from_address info.subject info.snippet }] ∧
      classificationPrompt info.from_address info.subject info.snippet =
        "\n" ++ specPromptTemplate info.from_address info.subject info.snippet ++ "\n" := by
  obtain ⟨-, -, hreq⟩ := processMessage_classified env msgId c info req h
  subst hreq
  exact ⟨by simp [stepState, h], rfl, rfl, rfl,
    classificationPrompt_eq_spec info.from_address info.subject info.snippet⟩

/-- Witness for classified_request_shape: message m1 of envC. -/
theorem classified_request_shape_witness :
    (stepState envC initState (some "m1")).llmRequests
        = initState.llmRequests ++ [reqC] ∧
      reqC.temperature = 1 / 10 ∧
      reqC.outputSchema = "EmailClassification" ∧
      reqC.messages = [{ role := "user",
                         content := classificationPrompt infoC.from_address infoC.subject infoC.snippet }] ∧
      classificationPrompt infoC.from_address infoC.subject infoC.snippet =
        "\n" ++ specPromptTemplate infoC.from_address infoC.subject infoC.snippet ++ "\n" :=
  classified_request_shape envC initState (some "m1") classHam infoC reqC rfl

/-- Claim C8: a list entry with a missing or empty id is skipped without any
state change: no fetch outcome, no record, no count, no LLM request, and the
whole run is the same as if the entry were absent from the listing. -/
theorem malformed_id_skipped (env : Env) (before after : List (Option String))
    (msgId : Option String) (h : msgId = none ∨ msgId = some "") :
    processMessage env msgId = MsgOutcome.skipped ∧
      runLoop env (before ++ msgId :: after) = runLoop env (before ++ after) := by
  have hskip : processMessage env msgId = MsgOutcome.skipped := by
    rcases h with h | h
    · rw [h]; exact processMessage_none env
    · rw [h]; exact processMessage_empty env "" rfl
  refine ⟨hskip, ?_⟩
  unfold runLoop
  rw [List.foldl_append, List.foldl_append, List.foldl_cons]
  congr 1
  simp [stepState, hskip]

/-- Witness for malformed_id_skipped: the missing-id entry of envA. -/
theorem malformed_id_skipped_witness :
    processMessage envA none = MsgOutcome.skipped ∧
      runLoop envA ([some "m1"] ++ none :: [some "m2"])
        = runLoop envA ([some "m1"] ++ [some "m2"]) :=
  malformed_id_skipped envA [some "m1"] [some "m2"] none (Or.inl rfl)

/-- Claim C9: the ids of the emails list of every returned summary are an
order-preserving subsequence of the ids returned by the listing call, in
listing order. -/
theorem listing_order_preserved (env : Env) (max_emails : ℕ) (label : String)
    (messages : List (Option String)) (s : RunSummary) (tr : List LLMRequest)
    (hlist : env.listMessages max_emails label = Except.ok messages)
    (h : classify_spam_workflow env max_emails label = Except.ok (s, tr)) :
    List.Sublist (s.emails.map SummaryEmail.email_id)
      (messages.filterMap (fun x => x)) := by
  obtain ⟨messages2, hlist2, hcase⟩ := workflow_ok_cases env max_emails label s tr h
  rw [hlist] at hlist2
  injection hlist2 with hmm
  subst hmm
  rcases hcase with ⟨_, hs, _⟩ | ⟨_, hs, _⟩
  · subst hs; simp [emptySummary]
  · subst hs
    obtain ⟨ext, he, hsub⟩ := runLoop_emails_sublist env messages initState
    have he2 : (runLoop env messages).emails = ext := by
      simpa [runLoop, initState] using he
    have hmap : (summarize (runLoop env messages)).emails.map SummaryEmail.email_id
        = ext.map EmailInfo.email_id := by
      simp [summarize, he2, List.map_map, Function.comp, serializeEmail]
    rw [hmap]
    exact hsub

/-- Witness for listing_order_preserved: the concrete run of envA. -/
theorem listing_order_witness :
    List.Sublist (outA.1.emails.map SummaryEmail.email_id)
      (msgsA.filterMap (fun x => x)) :=
  listing_order_preserved envA 20 "INBOX" msgsA outA.1 outA.2 rfl rfl

/-- Claim C10: every record of the emails list of a returned summary was
appended with a classification attached, so all five classification-derived
fields of its serialization are present (the None fallbacks of the
serialization never fire). -/
theorem emails_fields_present (env : Env) (max_emails : ℕ) (label : String)
    (s : RunSummary) (tr : List LLMRequest)
    (h : classify_spam_workflow env max_emails label = Except.ok (s, tr))
    (se : SummaryEmail) (hse : se ∈ s.emails) :
    se.is_spam.isSome = true ∧ se.confidence.isSome = true ∧
      se.spam_type.isSome = true ∧ se.reasoning.isSome = true ∧
      se.recommended_action.isSome = true := by
  obtain ⟨messages, _, hcase⟩ := workflow_ok_cases env max_emails label s tr h
  rcases hcase with ⟨_, hs, _⟩ | ⟨_, hs, _⟩
  · subst hs; simp [emptySummary] at hse
  · subst hs
    simp only [summarize] at hse
    rw [List.mem_map] at hse
    obtain ⟨info, hinfo, hser⟩ := hse
    rcases mem_runLoop_emails env messages initState info hinfo with h0 | ⟨mid, c, req, _, hp⟩
    · simp [initState] at h0
    · have hc := (processMessage_classified env mid c info req hp).2.1
      subst hser
      simp [serializeEmail, hc]

/-- Witness for emails_fields_present: the first serialized email of the
concrete run of envA. -/
theorem emails_fields_present_witness :
    someEmailA.is_spam.isSome = true ∧ someEmailA.confidence.isSome = true ∧
      someEmailA.spam_type.isSome = true ∧ someEmailA.reasoning.isSome = true ∧
      someEmailA.recommended_action.isSome = true :=
  emails_fields_present envA 20 "INBOX" outA.1 outA.2 rfl someEmailA (List.Mem.head _)

end SpamClassifier
